import Mathlib

/-
Verification development for the frosted-glass reveal pipeline
(ClarityController and its GLSL shader programs).

Shallow embedding conventions:
* Shader floats are modelled as exact rationals.
* A simulation field is a function from pixel coordinates to the three
  channels (clear, water, drip) stored in the r, g, b channels of the
  physics render target.
* Pixel coordinates follow the WebGL window convention pinned by the
  source itself: x grows to the right and y grows UPWARD, with y = 0 the
  bottom row.  The pointer handler in the source flips the DOM y for
  exactly this convention (y: rect.height - (clientY - rect.top),
  commented as flipped Y for WebGL coords), and the physics brush
  compares gl_FragCoord.xy, which is bottom-up, against that pointer.
* A texture2D fetch at vUv plus an exact whole-texel offset is the texel
  at the offset coordinate; sampling below the bottom edge clamps to the
  edge row (ClampToEdgeWrapping), which truncated natural subtraction
  reproduces exactly for the downward 2-texel offset used by the shader.
-/

namespace FrostedGlass

/-- GLSL max of two floats, written with an explicit comparison so that
the kernel can evaluate it on concrete rationals. -/
def maxQ (x y : ℚ) : ℚ := if x ≤ y then y else x

/-- GLSL min of two floats, written with an explicit comparison so that
the kernel can evaluate it on concrete rationals. -/
def minQ (x y : ℚ) : ℚ := if x ≤ y then x else y

theorem maxQ_eq_max (x y : ℚ) : maxQ x y = max x y := by
  unfold maxQ
  split <;> [exact (max_eq_right (by assumption)).symm;
             exact (max_eq_left (le_of_not_le (by assumption))).symm]

theorem minQ_eq_min (x y : ℚ) : minQ x y = min x y := by
  unfold minQ
  split <;> [exact (min_eq_left (by assumption)).symm;
             exact (min_eq_right (le_of_not_le (by assumption))).symm]

/-- GLSL clamp(x, minVal, maxVal) = min(max(x, minVal), maxVal). -/
def clampQ (x minVal maxVal : ℚ) : ℚ := minQ (maxQ x minVal) maxVal

/-- GLSL smoothstep(edge0, edge1, x): Hermite interpolation of the
clamped normalised parameter. -/
def smoothstep (edge0 edge1 x : ℚ) : ℚ :=
  let t := clampQ ((x - edge0) / (edge1 - edge0)) 0 1
  t * t * (3 - 2 * t)

/-- GLSL mix(x, y, a) = x * (1 - a) + y * a. -/
def mixQ (x y a : ℚ) : ℚ := x * (1 - a) + y * a

/-- One entry of the simulation field: the r, g, b channels of the
physics state texture (r: clear, g: water, b: drip). -/
structure FieldState where
  clear : ℚ
  water : ℚ
  drip : ℚ
deriving DecidableEq

/-- A simulation field: one FieldState per simulation pixel, indexed
bottom-up (y = 0 is the bottom row). -/
abbrev SimField := ℕ → ℕ → FieldState

/-- The all-zero (fully frosted) field; render targets start zeroed. -/
def zeroField : SimField := fun _ _ => ⟨0, 0, 0⟩

/-- Per-pixel body of physicsFragmentShader, translated line by line.
uPreviousFrame is the previous field; distToMouse x y stands for the
GLSL distance(gl_FragCoord.xy, uMouse) at pixel (x, y).  The Euclidean
distance itself is irrational in general, so it is passed in as a
function; every theorem below quantifies over it, hence holds for the
true distance.  uIsMouseActive is the float uniform the controller sets
to 1.0 or 0.0; the shader tests it against 0.5.  The successive let
bindings shadow the shader variables exactly as the GLSL reassigns
them; in particular the water seeding of drip is overwritten by the
advection assignment, exactly as in the source. -/
def physicsShaderPixel (uPreviousFrame : SimField) (distToMouse : ℕ → ℕ → ℚ)
    (uBrushSize uRefrostRate uIsMouseActive : ℚ) (x y : ℕ) : FieldState :=
  let state := uPreviousFrame x y
  let clear := state.clear
  let water := state.water
  let drip := state.drip
  -- 1. Wiping converts frost to water
  let brush : ℚ := if uIsMouseActive > 1/2 then
      1 - smoothstep 0 uBrushSize (distToMouse x y)
    else 0
  let newClear := maxQ clear brush
  let frostRemoved := maxQ 0 ((newClear - clear) * (1/2))
  let water := water + frostRemoved
  let clear := newClear
  -- 2. Water coalesces and creates potential for drips
  let drip := drip + water * (1/100)
  -- 3. Gravity pulls drips down (Advection): the fetch at
  -- vUv - vec2(0, 2/uResolution.y) is the texel 2 rows lower in the
  -- bottom-up y convention, clamped at the bottom edge.
  let incomingDrip := (uPreviousFrame x (y - 2)).drip
  let drip := incomingDrip * (985/1000)
  -- 4. Drips clear a path in the frost
  let clear := maxQ clear (drip * (9/10))
  -- 5. Water evaporates/dries
  let water := water * (97/100)
  -- 6. Frost slowly returns in non-wet, non-wiped areas
  let clear := clear - uRefrostRate * (1 - water)
  ⟨clampQ clear 0 1, clampQ water 0 1, clampQ drip 0 1⟩

/-- The float uniform value the controller writes for the pointer
active flag: this.isMouseActive ? 1.0 : 0.0. -/
def uIsMouseActiveValue (isMouseActive : Bool) : ℚ :=
  if isMouseActive then 1 else 0

/-- One physics tick with the pointer inactive, brush size 30 and
refrost rate 0, used for the concrete drip-advection runs. -/
def stepNoPointer (f : SimField) : SimField :=
  fun x y => physicsShaderPixel f (fun _ _ => 0) 30 0 (uIsMouseActiveValue false) x y

/-- A field holding a single drip seed of 1.0 at pixel (x0, y0). -/
def dripSeedField (x0 y0 : ℕ) : SimField :=
  fun x y => if x = x0 ∧ y = y0 then ⟨0, 0, 1⟩ else ⟨0, 0, 0⟩

/-- The getCoverUv helper of copyFragmentShader as it appears in
flat.tsx (and in three further copies of the shader in the repository):
inputs are the canvas resolution uniform, the media resolution uniform
and the output uv; the result is the uv at which the media texture is
sampled. -/
def getCoverUv (uResolution uImageResolution : ℚ × ℚ) (uv : ℚ × ℚ) : ℚ × ℚ :=
  if uImageResolution.2 > 0 then
    let canvasAspect := uResolution.1 / uResolution.2
    let imageAspect := uImageResolution.1 / uImageResolution.2
    if canvasAspect > imageAspect then
      -- Canvas is wider than the image: fit the width, crop top/bottom.
      let scale := imageAspect / canvasAspect
      (uv.1, uv.2 * scale + (1 - scale) / 2)
    else
      -- Canvas is taller than the image: fit the height, crop the sides.
      let scale := canvasAspect / imageAspect
      (uv.1 * scale + (1 - scale) / 2, uv.2)
  else uv

/-- The getCoverUv helper of Shaders.copyFragmentShader in the
ClarityController document of framer.tsx.  Note the scale factors are
the reciprocals of the flat.tsx version and the centering term is
subtracted, so this variant does not agree with the other copies. -/
def getCoverUvFramer (uResolution uImageResolution : ℚ × ℚ) (uv : ℚ × ℚ) : ℚ × ℚ :=
  if uImageResolution.2 > 0 then
    let canvasAspect := uResolution.1 / uResolution.2
    let imageAspect := uImageResolution.1 / uImageResolution.2
    if canvasAspect > imageAspect then
      let scale := canvasAspect / imageAspect
      (uv.1, uv.2 * scale - (scale - 1) / 2)
    else
      let scale := imageAspect / canvasAspect
      (uv.1 * scale - (scale - 1) / 2, uv.2)
  else uv

/-- The reveal factor of mainFragmentShader:
revealFactor = smoothstep(0.0, 0.4, clearFactor). -/
def revealFactor (clearFactor : ℚ) : ℚ := smoothstep 0 (2/5) clearFactor

/-- THREE.MathUtils.lerp(x, y, t) = (1 - t) * x + t * y. -/
def lerp (x y t : ℚ) : ℚ := (1 - t) * x + t * y

/-- One tick of ClarityController._updateSmoothedValues for a single
animated parameter: current is lerped toward target with the fixed
factor 0.075. -/
def updateSmoothedValue (current target : ℚ) : ℚ :=
  lerp current target (75/1000)

/-- The animated-parameter value after k ticks of smoothing toward a
constant target, starting from current. -/
def smoothIter (target : ℚ) : ℕ → ℚ → ℚ
  | 0, current => current
  | k + 1, current => smoothIter target k (updateSmoothedValue current target)

/-- ClarityController.IDLE_TIMEOUT in milliseconds. -/
def IDLE_TIMEOUT : ℤ := 2000

/-- ClarityController.IDLE_FRAME_INTERVAL in milliseconds. -/
def IDLE_FRAME_INTERVAL : ℕ := 100

/-- The two scheduling primitives _animate chooses between: a
display-synchronized callback (requestAnimationFrame) or a timer
(setTimeout with a millisecond delay). -/
inductive TickSchedule where
  | raf : TickSchedule
  | timer (ms : ℕ) : TickSchedule
deriving DecidableEq

/-- The isIdle computation of ClarityController._animate: the pointer
is inactive, the bound media type is the static image type, and more
than IDLE_TIMEOUT milliseconds have elapsed since the last pointer
interaction. -/
def computeIsIdle (isMouseActive : Bool) (mediaType : String)
    (now lastInteractionTime : ℤ) : Bool :=
  !isMouseActive && (mediaType == "image")
    && decide (now - lastInteractionTime > IDLE_TIMEOUT)

/-- The scheduling decision of ClarityController._animate: setTimeout
with IDLE_FRAME_INTERVAL when idle, requestAnimationFrame otherwise. -/
def scheduleNextTick (isMouseActive : Bool) (mediaType : String)
    (now lastInteractionTime : ℤ) : TickSchedule :=
  if computeIsIdle isMouseActive mediaType now lastInteractionTime then
    TickSchedule.timer IDLE_FRAME_INTERVAL
  else TickSchedule.raf

/-- The pointer fields of ClarityController that updatePointer touches:
the raw mouse position, the active flag and the last-interaction
timestamp. -/
structure PointerState where
  mousePosition : ℚ × ℚ
  isMouseActive : Bool
  lastInteractionTime : ℤ
deriving DecidableEq

/-- The initial pointer fields: mousePosition starts at the off-canvas
sentinel (-1000, -1000) with the pointer inactive. -/
def initialPointerState : PointerState :=
  { mousePosition := (-1000, -1000), isMouseActive := false, lastInteractionTime := 0 }

/-- ClarityController.updatePointer(x, y, isActive): the active flag is
always stored; the position and interaction time are stored only when
isActive is true. -/
def updatePointer (s : PointerState) (x y : ℚ) (isActive : Bool) (now : ℤ) : PointerState :=
  let s1 := { s with isMouseActive := isActive }
  if isActive then
    { s1 with mousePosition := (x, y), lastInteractionTime := now }
  else s1

/-- ClarityController._handleMouseLeave (and _handleTouchEnd): calls
updatePointer(0, 0, false). -/
def handleMouseLeave (s : PointerState) (now : ℤ) : PointerState :=
  updatePointer s 0 0 false now

/-- The mediaState record of ClarityController. -/
structure MediaState where
  type : String
  src : String
  loading : Bool
deriving DecidableEq

/-- The ClarityController fields that loadMedia reads and writes.
Textures are identified by numeric handles; uImageResolution is the
copy-material resolution uniform and boundTexture its texture uniform. -/
structure CtrlState where
  loadMediaRequestId : ℕ
  mediaState : MediaState
  isMediaReady : Bool
  isCancelled : Bool
  boundTexture : Option ℕ
  uImageResolution : ℚ × ℚ
deriving DecidableEq

/-- The externally observable calls loadMedia makes: the onError and
onMediaLoaded callbacks and texture disposal. -/
inductive Event where
  | errorCleared : Event
  | errorReported (message : String) : Event
  | mediaLoadedCleared : Event
  | mediaLoaded (resolution : ℚ × ℚ) : Event
  | disposeTexture (texture : ℕ) : Event
deriving DecidableEq

/-- ClarityController._cleanupPreviousMedia: disposes the bound texture
if any and nulls the texture uniform. -/
def cleanupPreviousMedia (s : CtrlState) : CtrlState × List Event :=
  match s.boundTexture with
  | some t => ({ s with boundTexture := none }, [Event.disposeTexture t])
  | none => (s, [])

/-- The source the loadMedia arguments select:
type === image ? imageUrl : videoUrl. -/
def srcOf (mediaType : String) (imageUrl videoUrl : Option String) : Option String :=
  if mediaType = "image" then imageUrl else videoUrl

/-- JavaScript falsiness of the selected source string (undefined or
the empty string). -/
def jsFalsy : Option String → Bool
  | none => true
  | some s => s == ""

/-- The synchronous prefix of ClarityController.loadMedia, up to the
first await: the early-return guard, then isMediaReady := false, the
request id increment, the mediaState update, onError(null),
onMediaLoaded(null) and _cleanupPreviousMedia.  Returns the new state,
the emitted events and the issued request id (none when the guard
returns early). -/
def loadMediaStart (s : CtrlState) (mediaType : String)
    (imageUrl videoUrl : Option String) : CtrlState × List Event × Option ℕ :=
  let src := srcOf mediaType imageUrl videoUrl
  if jsFalsy src = true ∨ (s.mediaState.type = mediaType ∧ some s.mediaState.src = src) then
    (s, [], none)
  else
    let rid := s.loadMediaRequestId + 1
    let s1 := { s with isMediaReady := false, loadMediaRequestId := rid,
                       mediaState := ⟨mediaType, src.getD "", true⟩ }
    let cleaned := cleanupPreviousMedia s1
    (cleaned.1, [Event.errorCleared, Event.mediaLoadedCleared] ++ cleaned.2, some rid)

/-- The continuation of loadMedia after a successful image load
resolves: onMediaLoaded fires first, then the staleness guard compares
the stamped request id with the latest issued one; a stale result only
disposes its texture, a current one binds the texture and resolution
uniforms, sets isMediaReady and clears the loading flag (the GPU-side
downscale of oversized images is resolution preserving for the fields
modelled here and is folded into the bound handle). -/
def loadMediaResolve (s : CtrlState) (requestId texture : ℕ)
    (resolution : ℚ × ℚ) : CtrlState × List Event :=
  let ev0 := [Event.mediaLoaded resolution]
  if s.isCancelled = true ∨ requestId ≠ s.loadMediaRequestId then
    (s, ev0 ++ [Event.disposeTexture texture])
  else
    ({ s with boundTexture := some texture, uImageResolution := resolution,
              isMediaReady := true,
              mediaState := { s.mediaState with loading := false } }, ev0)

/-- The catch branch of loadMedia when a load fails: a stale failure is
silently discarded; a current one clears isMediaReady, reports the
error, cleans up the previous media and clears the loading flag. -/
def loadMediaReject (s : CtrlState) (requestId : ℕ) (message : String) :
    CtrlState × List Event :=
  if s.isCancelled = true ∨ requestId ≠ s.loadMediaRequestId then (s, [])
  else
    let s1 := { s with isMediaReady := false }
    let cleaned := cleanupPreviousMedia s1
    ({ cleaned.1 with mediaState := { cleaned.1.mediaState with loading := false } },
     [Event.errorReported message] ++ cleaned.2)

/-- One interleaving step of the loadMedia machinery: either a new
loadMedia call reaches its synchronous prefix, or the asynchronous
result of an earlier call (stamped with its request id) arrives. -/
inductive LoadOp where
  | start (mediaType : String) (imageUrl videoUrl : Option String) : LoadOp
  | resolve (requestId texture : ℕ) (resolution : ℚ × ℚ) : LoadOp
  | reject (requestId : ℕ) (message : String) : LoadOp

/-- Apply one LoadOp, returning the new state, the events and the
request id issued by the op (only start ops issue ids). -/
def applyOp (s : CtrlState) : LoadOp → CtrlState × List Event × Option ℕ
  | .start mt iu vu => loadMediaStart s mt iu vu
  | .resolve rid t r => ((loadMediaResolve s rid t r).1, (loadMediaResolve s rid t r).2, none)
  | .reject rid m => ((loadMediaReject s rid m).1, (loadMediaReject s rid m).2, none)

/-- Run a sequence of LoadOps. -/
def runOps (s : CtrlState) : List LoadOp → CtrlState
  | [] => s
  | op :: ops => runOps (applyOp s op).1 ops

/-- The request ids issued along a sequence of LoadOps, in order. -/
def issuedIds (s : CtrlState) : List LoadOp → List ℕ
  | [] => []
  | op :: ops => (applyOp s op).2.2.toList ++ issuedIds (applyOp s op).1 ops

theorem clampQ_lower (x lo hi : ℚ) (h : lo ≤ hi) : lo ≤ clampQ x lo hi := by
  rw [clampQ, minQ_eq_min, maxQ_eq_max]
  exact le_min (le_max_right x lo) h

theorem clampQ_upper (x lo hi : ℚ) : clampQ x lo hi ≤ hi := by
  rw [clampQ, minQ_eq_min, maxQ_eq_max]
  exact min_le_right _ _

theorem clampQ_mono (lo hi : ℚ) {x y : ℚ} (h : x ≤ y) :
    clampQ x lo hi ≤ clampQ y lo hi := by
  rw [clampQ, clampQ, minQ_eq_min, minQ_eq_min, maxQ_eq_max, maxQ_eq_max]
  exact min_le_min (max_le_max h le_rfl) le_rfl

/-- The Hermite cubic t * t * (3 - 2 * t) is monotone on [0, 1]. -/
theorem hermite_cubic_mono {a b : ℚ} (ha : 0 ≤ a) (hab : a ≤ b) (hb : b ≤ 1) :
    a * a * (3 - 2 * a) ≤ b * b * (3 - 2 * b) := by
  nlinarith [mul_nonneg (sub_nonneg.2 hab) (sub_nonneg.2 hb),
             mul_nonneg ha (sub_nonneg.2 hab),
             mul_nonneg (mul_nonneg ha ha) (sub_nonneg.2 hab),
             mul_nonneg (mul_nonneg (sub_nonneg.2 hab) (sub_nonneg.2 hab)) (sub_nonneg.2 hb)]

/-- smoothstep with fixed edges 0 and 2/5 is monotone in its argument. -/
theorem smoothstep_mono {c1 c2 : ℚ} (h : c1 ≤ c2) :
    smoothstep 0 (2/5) c1 ≤ smoothstep 0 (2/5) c2 := by
  unfold smoothstep
  have ht : clampQ ((c1 - 0) / (2/5 - 0)) 0 1 ≤ clampQ ((c2 - 0) / (2/5 - 0)) 0 1 := by
    refine clampQ_mono 0 1 ?_
    exact (div_le_div_iff_of_pos_right (by norm_num : (0:ℚ) < 2/5 - 0)).mpr (by linarith)
  exact hermite_cubic_mono (clampQ_lower _ 0 1 (by norm_num)) ht (clampQ_upper _ 0 1)

/-- The smoothing gap closed form: after k ticks the remaining gap is
(1 - 0.075) ^ k times the initial gap. -/
theorem smoothIter_gap (target : ℚ) (k : ℕ) (c : ℚ) :
    target - smoothIter target k c = (37/40) ^ k * (target - c) := by
  induction k generalizing c with
  | zero => simp [smoothIter]
  | succ k ih =>
    have hstep : target - updateSmoothedValue c target = (37/40) * (target - c) := by
      unfold updateSmoothedValue lerp
      ring
    calc target - smoothIter target (k + 1) c
        = target - smoothIter target k (updateSmoothedValue c target) := rfl
      _ = (37/40) ^ k * (target - updateSmoothedValue c target) := ih _
      _ = (37/40) ^ k * ((37/40) * (target - c)) := by rw [hstep]
      _ = (37/40) ^ (k + 1) * (target - c) := by ring

theorem cleanupPreviousMedia_requestId (s : CtrlState) :
    (cleanupPreviousMedia s).1.loadMediaRequestId = s.loadMediaRequestId := by
  cases h : s.boundTexture <;> simp [cleanupPreviousMedia, h]

theorem applyOp_requestId_le (s : CtrlState) (op : LoadOp) :
    s.loadMediaRequestId ≤ (applyOp s op).1.loadMediaRequestId := by
  cases op with
  | start mt iu vu =>
    simp only [applyOp, loadMediaStart]
    split
    · exact le_rfl
    · rw [cleanupPreviousMedia_requestId]
      exact Nat.le_succ _
  | resolve rid t r =>
    simp only [applyOp, loadMediaResolve]
    split <;> exact le_rfl
  | reject rid m =>
    simp only [applyOp, loadMediaReject]
    split
    · exact le_rfl
    · cases h : ({ s with isMediaReady := false } : CtrlState).boundTexture <;>
        simp [cleanupPreviousMedia, h]

theorem applyOp_issued (s : CtrlState) (op : LoadOp) (rid : ℕ)
    (h : (applyOp s op).2.2 = some rid) :
    rid = s.loadMediaRequestId + 1 ∧
      (applyOp s op).1.loadMediaRequestId = rid := by
  cases op with
  | start mt iu vu =>
    simp only [applyOp, loadMediaStart] at h ⊢
    split at h
    · simp at h
    · simp at h
      subst h
      refine ⟨rfl, ?_⟩
      split
      · simp_all
      · rw [cleanupPreviousMedia_requestId]
  | resolve rid2 t r =>
    simp only [applyOp] at h
    exact absurd h (by simp)
  | reject rid2 m =>
    simp only [applyOp] at h
    exact absurd h (by simp)

theorem issuedIds_gt (ops : List LoadOp) :
    ∀ s : CtrlState, ∀ i ∈ issuedIds s ops, s.loadMediaRequestId < i := by
  induction ops with
  | nil => intro s i hi; simp [issuedIds] at hi
  | cons op ops ih =>
    intro s i hi
    simp only [issuedIds, List.mem_append] at hi
    rcases hi with hi | hi
    · rcases Option.mem_toList.1 hi with h
      have := applyOp_issued s op i h
      omega
    · have h1 := ih (applyOp s op).1 i hi
      have h2 := applyOp_requestId_le s op
      omega

theorem issuedIds_pairwise (ops : List LoadOp) :
    ∀ s : CtrlState, (issuedIds s ops).Pairwise (· < ·) := by
  induction ops with
  | nil => intro s; simp [issuedIds]
  | cons op ops ih =>
    intro s
    cases h : (applyOp s op).2.2 with
    | none => simpa [issuedIds, h] using ih (applyOp s op).1
    | some rid =>
      have hid := applyOp_issued s op rid h
      have : issuedIds s (op :: ops) = rid :: issuedIds (applyOp s op).1 ops := by
        simp [issuedIds, h]
      rw [this, List.pairwise_cons]
      refine ⟨fun j hj => ?_, ih (applyOp s op).1⟩
      have := issuedIds_gt ops (applyOp s op).1 j hj
      omega

/-- A field whose channels all lie in [0, 1] at every pixel. -/
def FieldInUnit (f : SimField) : Prop :=
  ∀ x y, 0 ≤ (f x y).clear ∧ (f x y).clear ≤ 1 ∧
    0 ≤ (f x y).water ∧ (f x y).water ≤ 1 ∧
    0 ≤ (f x y).drip ∧ (f x y).drip ≤ 1

/-- C1: for every tick and every simulation pixel, starting from any
prior field with channels in [0, 1], the written clear, water and drip
channels each lie in [0, 1], for every pointer distance field, active
flag value, brush radius and refrost rate: the final clamp of the
physics shader makes the unit bound an invariant of every tick. -/
theorem C1_clamp_invariant (prev : SimField) (distToMouse : ℕ → ℕ → ℚ)
    (uBrushSize uRefrostRate uIsMouseActive : ℚ)
    (hprev : FieldInUnit prev) (x y : ℕ) :
    0 ≤ (physicsShaderPixel prev distToMouse uBrushSize uRefrostRate uIsMouseActive x y).clear ∧
    (physicsShaderPixel prev distToMouse uBrushSize uRefrostRate uIsMouseActive x y).clear ≤ 1 ∧
    0 ≤ (physicsShaderPixel prev distToMouse uBrushSize uRefrostRate uIsMouseActive x y).water ∧
    (physicsShaderPixel prev distToMouse uBrushSize uRefrostRate uIsMouseActive x y).water ≤ 1 ∧
    0 ≤ (physicsShaderPixel prev distToMouse uBrushSize uRefrostRate uIsMouseActive x y).drip ∧
    (physicsShaderPixel prev distToMouse uBrushSize uRefrostRate uIsMouseActive x y).drip ≤ 1 := by
  simp only [physicsShaderPixel]
  exact ⟨clampQ_lower _ 0 1 (by norm_num), clampQ_upper _ 0 1,
         clampQ_lower _ 0 1 (by norm_num), clampQ_upper _ 0 1,
         clampQ_lower _ 0 1 (by norm_num), clampQ_upper _ 0 1⟩

theorem C1_clamp_invariant_witness :
    FieldInUnit zeroField ∧
    (0 ≤ (physicsShaderPixel zeroField (fun _ _ => 0) 30 0 0 0 0).clear ∧
     (physicsShaderPixel zeroField (fun _ _ => 0) 30 0 0 0 0).clear ≤ 1 ∧
     0 ≤ (physicsShaderPixel zeroField (fun _ _ => 0) 30 0 0 0 0).water ∧
     (physicsShaderPixel zeroField (fun _ _ => 0) 30 0 0 0 0).water ≤ 1 ∧
     0 ≤ (physicsShaderPixel zeroField (fun _ _ => 0) 30 0 0 0 0).drip ∧
     (physicsShaderPixel zeroField (fun _ _ => 0) 30 0 0 0 0).drip ≤ 1) := by
  have h : FieldInUnit zeroField := by
    intro x y
    simp [zeroField]
  exact ⟨h, C1_clamp_invariant zeroField (fun _ _ => 0) 30 0 0 h 0 0⟩

/-- C2: the written drip channel is indeed replaced (not blended) by a
prior drip sample at a 2-texel vertical offset scaled by the retention
factor 0.985 and clamped, but the offset points DOWNWARD in the
bottom-up pixel convention the source itself uses for gl_FragCoord and
the pointer, so the drip content moves 2 pixels UP each tick: a drip
seeded at (8, 6) appears after one tick at (8, 8) with value 0.985 and
after two ticks at (8, 10) with value 0.985 squared, while the pixels
2 and 4 rows BELOW the seed, where the claim locates the peak, stay at
zero. -/
theorem C2_drip_advection :
    (∀ (f : SimField) (d : ℕ → ℕ → ℚ) (bs rr act : ℚ) (x y : ℕ),
      (physicsShaderPixel f d bs rr act x y).drip
        = clampQ ((f x (y - 2)).drip * (985/1000)) 0 1) ∧
    ((stepNoPointer (dripSeedField 8 6)) 8 8).drip = 197/200 ∧
    ((stepNoPointer (dripSeedField 8 6)) 8 4).drip = 0 ∧
    ((stepNoPointer (stepNoPointer (dripSeedField 8 6))) 8 10).drip = (197/200) ^ 2 ∧
    ((stepNoPointer (stepNoPointer (dripSeedField 8 6))) 8 2).drip = 0 := by
  refine ⟨fun f d bs rr act x y => rfl, ?_, ?_, ?_, ?_⟩ <;>
    norm_num [stepNoPointer, physicsShaderPixel, dripSeedField, maxQ, minQ, clampQ,
              smoothstep, uIsMouseActiveValue]

/-- C3: the flat.tsx cover-fit mapping does compress and center the
media sampling range as the claim states, but the copy shader of the
ClarityController document in framer.tsx uses the reciprocal scale, so
it expands the sampling range instead: with a 200 x 100 canvas over a
100 x 100 image (s = 1/2) it sends output uv.y = 0 to image y = -1/2
and uv.y = 1 to image y = 3/2, outside the claimed centered
sub-interval [1/4, 3/4]. -/
theorem C3_cover_fit (rx ry ix iy u v : ℚ)
    (hrx : 0 < rx) (hry : 0 < ry) (hix : 0 < ix) (hiy : 0 < iy) :
    (ix / iy < rx / ry →
      0 < (ix / iy) / (rx / ry) ∧ (ix / iy) / (rx / ry) < 1 ∧
      getCoverUv (rx, ry) (ix, iy) (u, v)
        = (u, v * ((ix / iy) / (rx / ry)) + (1 - (ix / iy) / (rx / ry)) / 2)) ∧
    (rx / ry < ix / iy →
      0 < (rx / ry) / (ix / iy) ∧ (rx / ry) / (ix / iy) < 1 ∧
      getCoverUv (rx, ry) (ix, iy) (u, v)
        = (u * ((rx / ry) / (ix / iy)) + (1 - (rx / ry) / (ix / iy)) / 2, v)) ∧
    (getCoverUvFramer (200, 100) (100, 100) (0, 0)).2 = -(1/2) ∧
    (getCoverUvFramer (200, 100) (100, 100) (0, 1)).2 = 3/2 ∧
    ¬((1 - (1:ℚ)/2) / 2 ≤ -(1/2)) ∧ ¬((3:ℚ)/2 ≤ (1 + (1:ℚ)/2) / 2) := by
  have hca : 0 < rx / ry := div_pos hrx hry
  have hia : 0 < ix / iy := div_pos hix hiy
  refine ⟨fun h => ⟨div_pos hia hca, (div_lt_one hca).mpr h, ?_⟩,
          fun h => ⟨div_pos hca hia, (div_lt_one hia).mpr h, ?_⟩, ?_, ?_, ?_, ?_⟩
  · simp only [getCoverUv]
    rw [if_pos (by exact hiy), if_pos (by exact h)]
  · simp only [getCoverUv]
    rw [if_pos (by exact hiy), if_neg (by exact not_lt.mpr (le_of_lt h))]
  · norm_num [getCoverUvFramer]
  · norm_num [getCoverUvFramer]
  · norm_num
  · norm_num

theorem C3_cover_fit_witness :
    (0 < (200:ℚ) ∧ 0 < (100:ℚ) ∧ (100:ℚ)/100 < (200:ℚ)/100) ∧
    (0 < ((100:ℚ)/100) / ((200:ℚ)/100) ∧ ((100:ℚ)/100) / ((200:ℚ)/100) < 1 ∧
      getCoverUv (200, 100) (100, 100) (0, 0)
        = (0, 0 * (((100:ℚ)/100) / ((200:ℚ)/100)) + (1 - ((100:ℚ)/100) / ((200:ℚ)/100)) / 2)) := by
  refine ⟨⟨by norm_num, by norm_num, by norm_num⟩, ?_⟩
  exact (C3_cover_fit 200 100 100 100 0 0 (by norm_num) (by norm_num)
    (by norm_num) (by norm_num)).1 (by norm_num)

/-- C4: along every interleaving of loadMedia calls and asynchronous
results, the issued request ids are pairwise strictly increasing; a
success result carrying a request id different from the latest issued
one leaves the controller state (in particular the bound texture and
the image-resolution uniform) unchanged, disposes its texture and
reports no error, and a failure result with a stale id is silently
discarded. -/
theorem C4_stale_load_guard :
    (∀ (s : CtrlState) (ops : List LoadOp), (issuedIds s ops).Pairwise (· < ·)) ∧
    (∀ (s : CtrlState) (rid t : ℕ) (r : ℚ × ℚ), rid ≠ s.loadMediaRequestId →
      (loadMediaResolve s rid t r).1 = s ∧
      Event.disposeTexture t ∈ (loadMediaResolve s rid t r).2 ∧
      (∀ m, Event.errorReported m ∉ (loadMediaResolve s rid t r).2) ∧
      (loadMediaResolve s rid t r).1.boundTexture = s.boundTexture ∧
      (loadMediaResolve s rid t r).1.uImageResolution = s.uImageResolution) ∧
    (∀ (s : CtrlState) (rid : ℕ) (m : String), rid ≠ s.loadMediaRequestId →
      (loadMediaReject s rid m).1 = s ∧ (loadMediaReject s rid m).2 = []) := by
  refine ⟨fun s ops => issuedIds_pairwise ops s, fun s rid t r h => ?_, fun s rid m h => ?_⟩
  · simp only [loadMediaResolve, if_pos (Or.inr h)]
    simp
  · simp only [loadMediaReject, if_pos (Or.inr h)]
    simp

/-- The controller state as constructed, before any media load. -/
def initialCtrlState : CtrlState :=
  { loadMediaRequestId := 0, mediaState := ⟨"", "", false⟩, isMediaReady := false,
    isCancelled := false, boundTexture := none, uImageResolution := (0, 0) }

/-- Scenario state after loadMedia(image, a) has started (request 1). -/
def ctrlAfterStartA : CtrlState :=
  (loadMediaStart initialCtrlState "image" (some "a") none).1

/-- Scenario state after loadMedia(image, b) has also started
(request 2) while request 1 is still in flight. -/
def ctrlAfterStartB : CtrlState :=
  (loadMediaStart ctrlAfterStartA "image" (some "b") none).1

/-- Scenario state after the newer request 2 resolved and bound its
texture (handle 7). -/
def ctrlAfterResolveB : CtrlState :=
  (loadMediaResolve ctrlAfterStartB 2 7 (100, 50)).1

/-- The load A then load B scenario as an op trace, with the slow A
result (request 1, texture 5) arriving after B resolved. -/
def staleScenarioOps : List LoadOp :=
  [LoadOp.start "image" (some "a") none,
   LoadOp.start "image" (some "b") none,
   LoadOp.resolve 2 7 (100, 50),
   LoadOp.resolve 1 5 (640, 480)]

theorem C4_stale_load_guard_witness :
    (issuedIds initialCtrlState staleScenarioOps).Pairwise (· < ·) ∧
    issuedIds initialCtrlState staleScenarioOps = [1, 2] ∧
    ctrlAfterResolveB.boundTexture = some 7 ∧
    (1 : ℕ) ≠ ctrlAfterResolveB.loadMediaRequestId ∧
    ((loadMediaResolve ctrlAfterResolveB 1 5 (640, 480)).1 = ctrlAfterResolveB ∧
     Event.disposeTexture 5 ∈ (loadMediaResolve ctrlAfterResolveB 1 5 (640, 480)).2 ∧
     (∀ m, Event.errorReported m ∉ (loadMediaResolve ctrlAfterResolveB 1 5 (640, 480)).2) ∧
     (loadMediaResolve ctrlAfterResolveB 1 5 (640, 480)).1.boundTexture
       = ctrlAfterResolveB.boundTexture ∧
     (loadMediaResolve ctrlAfterResolveB 1 5 (640, 480)).1.uImageResolution
       = ctrlAfterResolveB.uImageResolution) := by
  refine ⟨C4_stale_load_guard.1 initialCtrlState staleScenarioOps, by decide, by decide,
    by decide, C4_stale_load_guard.2.1 ctrlAfterResolveB 1 5 (640, 480) (by decide)⟩

/-- A prior field that is everywhere fully wet (water = 1) with no
drip. -/
def waterFullField : SimField := fun _ _ => ⟨1, 1, 0⟩

/-- The same prior field with the water channel zeroed. -/
def waterZeroField : SimField := fun _ _ => ⟨1, 0, 0⟩

/-- C5: the statement drip += water * 0.01 in the physics shader is a
dead store: the advection assignment drip = incomingDrip * 0.985
overwrites it before the output is written, so the written drip value
is identical whether the water channel of the pixel is 1 or 0 (both
zero here), instead of differing by water * 0.01 as the claim states;
the written drip depends only on the drip channel of the prior field. -/
theorem C5_water_drip_seeding_dead :
    (physicsShaderPixel waterFullField (fun _ _ => 0) 30 0 0 3 3).drip = 0 ∧
    (physicsShaderPixel waterZeroField (fun _ _ => 0) 30 0 0 3 3).drip = 0 ∧
    (physicsShaderPixel waterFullField (fun _ _ => 0) 30 0 0 3 3).drip
      ≠ (physicsShaderPixel waterZeroField (fun _ _ => 0) 30 0 0 3 3).drip + 1 * (1/100) ∧
    (∀ (f g : SimField) (d : ℕ → ℕ → ℚ) (bs rr act : ℚ) (x y : ℕ),
      (f x (y - 2)).drip = (g x (y - 2)).drip →
      (physicsShaderPixel f d bs rr act x y).drip
        = (physicsShaderPixel g d bs rr act x y).drip) := by
  refine ⟨?_, ?_, ?_, fun f g d bs rr act x y h => ?_⟩
  · norm_num [physicsShaderPixel, waterFullField, maxQ, minQ, clampQ, smoothstep]
  · norm_num [physicsShaderPixel, waterZeroField, maxQ, minQ, clampQ, smoothstep]
  · norm_num [physicsShaderPixel, waterFullField, waterZeroField, maxQ, minQ, clampQ,
              smoothstep]
  · simp only [physicsShaderPixel, h]

theorem C5_water_drip_seeding_dead_witness :
    (waterFullField 3 (3 - 2)).drip = (waterZeroField 3 (3 - 2)).drip ∧
    (physicsShaderPixel waterFullField (fun _ _ => 0) 30 0 0 3 3).drip
      = (physicsShaderPixel waterZeroField (fun _ _ => 0) 30 0 0 3 3).drip := by
  refine ⟨rfl, C5_water_drip_seeding_dead.2.2.2 waterFullField waterZeroField
    (fun _ _ => 0) 30 0 0 3 3 rfl⟩

/-- C6: the compositing stage computes
revealFactor = smoothstep(0, 0.4, clearFactor); for any fixed water and
drip values the reveal factor is non-decreasing in clearFactor on
[0, 1], and the mix weight it places on the sharp scene color over the
blurred color is therefore non-decreasing as well. -/
theorem C6_reveal_monotone :
    (∀ c, revealFactor c = smoothstep 0 (2/5) c) ∧
    (∀ c1 c2, 0 ≤ c1 → c1 ≤ c2 → c2 ≤ 1 → revealFactor c1 ≤ revealFactor c2) ∧
    (∀ blurred scene r1 r2, blurred ≤ scene → r1 ≤ r2 →
      mixQ blurred scene r1 ≤ mixQ blurred scene r2) := by
  refine ⟨fun c => rfl, fun c1 c2 _ h12 _ => smoothstep_mono h12,
          fun blurred scene r1 r2 hbs hr => ?_⟩
  unfold mixQ
  nlinarith [mul_nonneg (sub_nonneg.2 hbs) (sub_nonneg.2 hr)]

theorem C6_reveal_monotone_witness :
    (0 ≤ (0:ℚ) ∧ (0:ℚ) ≤ 1 ∧ (1:ℚ) ≤ 1 ∧ revealFactor 0 ≤ revealFactor 1) ∧
    ((0:ℚ) ≤ 1 ∧ (0:ℚ) ≤ 1 ∧ mixQ 0 1 0 ≤ mixQ 0 1 1) := by
  refine ⟨⟨le_rfl, by norm_num, le_rfl,
    C6_reveal_monotone.2.1 0 1 le_rfl (by norm_num) le_rfl⟩,
    ⟨by norm_num, by norm_num, C6_reveal_monotone.2.2 0 1 0 1 (by norm_num) (by norm_num)⟩⟩

/-- C7 counterexample: with the fixed lerp factor 0.075, starting from
current 0 and target 1 (initial gap 1), the gap remaining after 59
ticks is (37/40) ^ 59, which is strictly greater than 1 percent of the
initial gap: 59 ticks do NOT suffice. -/
theorem C7_counterexample_59_ticks : 1 - smoothIter 1 59 0 > 1/100 := by
  rw [smoothIter_gap 1 59 0]
  norm_num

/-- C7 amended: each animated parameter is updated once per tick by
current := current + 0.075 * (target - current); after k ticks the
remaining gap is (1 - 0.075) ^ k times the initial gap, and the current
value is within 1 percent of the initial gap of the target after 60
ticks (not 59: (0.925) ^ 59 is about 1.0055 percent). -/
theorem C7_smoothing_convergence :
    (∀ c t, updateSmoothedValue c t = c + (75/1000) * (t - c)) ∧
    (∀ t c (k : ℕ), t - smoothIter t k c = (37/40) ^ k * (t - c)) ∧
    (∀ t c, |t - smoothIter t 60 c| ≤ 1/100 * |t - c|) := by
  refine ⟨fun c t => by unfold updateSmoothedValue lerp; ring,
    fun t c k => smoothIter_gap t k c, fun t c => ?_⟩
  have h := smoothIter_gap t 60 c
  have habs : |t - smoothIter t 60 c| = (37/40) ^ 60 * |t - c| := by
    rw [h, abs_mul, abs_of_nonneg (by positivity : (0:ℚ) ≤ (37/40) ^ 60)]
  rw [habs]
  have hpow : ((37:ℚ)/40) ^ 60 ≤ 1/100 := by norm_num
  exact mul_le_mul_of_nonneg_right hpow (abs_nonneg _)

/-- C8: on every scheduling step of _animate, the next tick is
scheduled with the 100 ms timer exactly when the pointer is inactive,
the bound media type is the static image type, and strictly more than
2000 ms have elapsed since the last interaction; in every other case
the next tick is scheduled with the display-synchronized callback. -/
theorem C8_idle_throttling (isMouseActive : Bool) (mediaType : String)
    (now lastInteractionTime : ℤ) :
    (scheduleNextTick isMouseActive mediaType now lastInteractionTime
        = TickSchedule.timer 100 ↔
      (isMouseActive = false ∧ mediaType = "image" ∧ now - lastInteractionTime > 2000)) ∧
    (scheduleNextTick isMouseActive mediaType now lastInteractionTime
        = TickSchedule.timer 100 ∨
     scheduleNextTick isMouseActive mediaType now lastInteractionTime
        = TickSchedule.raf) := by
  unfold scheduleNextTick computeIsIdle IDLE_TIMEOUT IDLE_FRAME_INTERVAL
  split
  case isTrue h =>
    simp only [Bool.and_eq_true, Bool.not_eq_eq_eq_not, Bool.not_true, beq_iff_eq,
      decide_eq_true_eq] at h
    exact ⟨⟨fun _ => ⟨h.1.1, h.1.2, h.2⟩, fun _ => rfl⟩, Or.inl rfl⟩
  case isFalse h =>
    simp only [Bool.and_eq_true, Bool.not_eq_eq_eq_not, Bool.not_true, beq_iff_eq,
      decide_eq_true_eq, not_and] at h
    refine ⟨⟨fun hraf => absurd hraf (by simp), fun hc => absurd hc (by tauto)⟩, Or.inr rfl⟩

/-- C9 counterexample: after a pointer move to the in-canvas point
(50, 60) followed by a mouse leave, the active flag is cleared but the
stored raw pointer position still holds (50, 60): it is neither reset
to the off-canvas sentinel (-1000, -1000) nor moved off canvas (it is
not even set to the (0, 0) the handler passes), refuting the reset
claimed on pointer-leave. -/
theorem C9_counterexample_no_sentinel_reset :
    (handleMouseLeave (updatePointer initialPointerState 50 60 true 7) 9).isMouseActive
      = false ∧
    (handleMouseLeave (updatePointer initialPointerState 50 60 true 7) 9).mousePosition
      = (50, 60) ∧
    (handleMouseLeave (updatePointer initialPointerState 50 60 true 7) 9).mousePosition
      ≠ (-1000, -1000) ∧
    (handleMouseLeave (updatePointer initialPointerState 50 60 true 7) 9).mousePosition
      ≠ (0, 0) := by
  decide

/-- C9 amended: on pointer-leave or touch-end the handler calls
updatePointer(0, 0, false), which clears the active flag but leaves the
stored raw position (and interaction time) unchanged; with the flag
cleared the pointer exerts no influence on the physics brush: with an
inactive pointer the physics output is identical for any two pointer
distance fields. -/
theorem C9_pointer_leave :
    (∀ (s : PointerState) (now : ℤ),
      (handleMouseLeave s now).isMouseActive = false ∧
      (handleMouseLeave s now).mousePosition = s.mousePosition ∧
      (handleMouseLeave s now).lastInteractionTime = s.lastInteractionTime) ∧
    (∀ (f : SimField) (d1 d2 : ℕ → ℕ → ℚ) (bs rr : ℚ) (x y : ℕ),
      physicsShaderPixel f d1 bs rr (uIsMouseActiveValue false) x y
        = physicsShaderPixel f d2 bs rr (uIsMouseActiveValue false) x y) := by
  constructor
  · intro s now
    simp [handleMouseLeave, updatePointer]
  · intro f d1 d2 bs rr x y
    simp only [physicsShaderPixel, uIsMouseActiveValue]
    norm_num

/-- C10: a loadMedia call whose selected source is absent (or the empty
string), or whose media type and source both match the currently
tracked mediaState, returns before incrementing the request id: the
controller state is returned unchanged, no callback fires, no texture
is disposed and no request id is issued. -/
theorem C10_loadMedia_noop (s : CtrlState) (mediaType : String)
    (imageUrl videoUrl : Option String)
    (h : jsFalsy (srcOf mediaType imageUrl videoUrl) = true ∨
      (s.mediaState.type = mediaType ∧
        some s.mediaState.src = srcOf mediaType imageUrl videoUrl)) :
    loadMediaStart s mediaType imageUrl videoUrl = (s, [], none) := by
  unfold loadMediaStart
  rw [if_pos h]

/-- A controller state with request id 3 and a bound texture, tracking
media (image, a). -/
def ctrlTrackingA : CtrlState :=
  { loadMediaRequestId := 3, mediaState := ⟨"image", "a", false⟩, isMediaReady := true,
    isCancelled := false, boundTexture := some 9, uImageResolution := (10, 10) }

theorem C10_loadMedia_noop_witness :
    (jsFalsy (srcOf "image" none (some "v")) = true ∨
      (ctrlTrackingA.mediaState.type = "image" ∧
        some ctrlTrackingA.mediaState.src = srcOf "image" none (some "v"))) ∧
    loadMediaStart ctrlTrackingA "image" none (some "v") = (ctrlTrackingA, [], none) ∧
    (jsFalsy (srcOf "image" (some "a") none) = true ∨
      (ctrlTrackingA.mediaState.type = "image" ∧
        some ctrlTrackingA.mediaState.src = srcOf "image" (some "a") none)) ∧
    loadMediaStart ctrlTrackingA "image" (some "a") none = (ctrlTrackingA, [], none) := by
  refine ⟨by decide, C10_loadMedia_noop ctrlTrackingA "image" none (some "v") (by decide),
    by decide, C10_loadMedia_noop ctrlTrackingA "image" (some "a") none (by decide)⟩

end FrostedGlass
